import Mathlib

/-!
Verification development for the hyper-mcp-search plugin (Rust sources:
`src/browse.rs`, `src/searxng.rs`, `src/lib.rs`).  The Rust code is embedded
shallowly: pure logic becomes Lean functions, the HTTP transport, URL parsing,
JSON (de)serialisation and HTML-to-Markdown conversion are external
collaborators and are passed in as explicit environments, and fallible code
returns `Except`.  Machine integers (`u16` status codes, `u32`/`usize`
configuration values) are modelled as `Nat`; `f64` relevance scores are
modelled as `Option ℚ` where `Option.none` stands for a NaN (the one value on
which `partial_cmp` returns no ordering).
-/

namespace SearxMcp

/-! ## Basic utilities -/

/-- Models Rust `str::starts_with` on a string pattern, over the character
lists of the two strings. -/
def starts_with (s pre : String) : Bool :=
  pre.data.isPrefixOf s.data

/-- Models Rust `str::parse::<uN>` for an unsigned integer of bit width
`width`: an optional leading `+`, then one or more ASCII digits, value within
range.  Mirrors the standard library behaviour used at `browse.rs` line 31 and
`searxng.rs` line 89. -/
def rustParseNat (width : Nat) (s : String) : Option Nat :=
  let cs :=
    match s.data with
    | '+' :: rest => rest
    | rest => rest
  if cs.isEmpty then Option.none
  else
    match cs.foldl
        (fun acc? c => acc?.bind
          (fun acc => if c.isDigit then some (acc * 10 + (c.toNat - 48)) else Option.none))
        (some 0) with
    | some n => if n < 2 ^ width then some n else Option.none
    | Option.none => Option.none

/-- `parse_comma_separated_from_string` (`searxng.rs` lines 11-16): split on
commas, trim whitespace, drop empty pieces. -/
def parse_comma_separated_from_string (s : String) : List String :=
  ((s.splitOn ",").map String.trim).filter (fun p => !p.isEmpty)

/-- Models Rust `String::from_utf8` (standard library, an external
collaborator of `browse.rs`/`searxng.rs`): strict UTF-8 validation of a byte
list, rejecting truncated sequences, stray continuation bytes, overlong
encodings, surrogates and values above `U+10FFFF`. -/
def utf8DecodeList : List Nat → Option (List Char)
  | [] => some []
  | b :: bs =>
    if b < 0x80 then
      (utf8DecodeList bs).map (fun cs => Char.ofNat b :: cs)
    else if b < 0xC2 then
      Option.none
    else if b < 0xE0 then
      match bs with
      | b1 :: bs1 =>
        if 0x80 ≤ b1 && b1 < 0xC0 then
          (utf8DecodeList bs1).map
            (fun cs => Char.ofNat ((b - 0xC0) * 0x40 + (b1 - 0x80)) :: cs)
        else Option.none
      | [] => Option.none
    else if b < 0xF0 then
      match bs with
      | b1 :: b2 :: bs2 =>
        if (0x80 ≤ b1 && b1 < 0xC0) && (0x80 ≤ b2 && b2 < 0xC0) then
          let c := (b - 0xE0) * 0x1000 + (b1 - 0x80) * 0x40 + (b2 - 0x80)
          if c < 0x800 then Option.none
          else if 0xD800 ≤ c && c < 0xE000 then Option.none
          else (utf8DecodeList bs2).map (fun cs => Char.ofNat c :: cs)
        else Option.none
      | _ => Option.none
    else if b < 0xF5 then
      match bs with
      | b1 :: b2 :: b3 :: bs3 =>
        if (0x80 ≤ b1 && b1 < 0xC0) && ((0x80 ≤ b2 && b2 < 0xC0) && (0x80 ≤ b3 && b3 < 0xC0)) then
          let c := (b - 0xF0) * 0x40000 + (b1 - 0x80) * 0x1000 + (b2 - 0x80) * 0x40 + (b3 - 0x80)
          if c < 0x10000 then Option.none
          else if 0x110000 ≤ c then Option.none
          else (utf8DecodeList bs3).map (fun cs => Char.ofNat c :: cs)
        else Option.none
      | _ => Option.none
    else Option.none

/-- `String::from_utf8` on a byte list, producing a `String`. -/
def string_from_utf8 (body : List Nat) : Option String :=
  (utf8DecodeList body).map (fun cs => String.mk cs)

/-- `String::from_utf8(...).unwrap_or_else(|_| "Unknown error")`: the error
body as shown to the caller (`browse.rs` lines 67-68, `searxng.rs`
lines 221-222). -/
def decode_or_unknown (body : List Nat) : String :=
  (string_from_utf8 body).getD "Unknown error"

/-! ## HTTP model -/

/-- An HTTP response as observed through `extism_pdk::http`: a status code
(`u16`, so `Nat` here), a header map queried by exact key, and a byte body. -/
structure HttpResponse where
  status : Nat
  headers : List (String × String)
  body : List Nat
deriving DecidableEq

/-- The shared success predicate (`searxng.rs` lines 217-218 and 295-296 and
312-313, `browse.rs` lines 63-64): status in `[200,300)`, or the documented
backend quirk of status `0` with a non-empty body. -/
def is_success (r : HttpResponse) : Bool :=
  (200 ≤ r.status && r.status < 300) || (r.status == 0 && !r.body.isEmpty)

/-- An external configuration key lookup (`extism_pdk::config::get`):
`Option.none` models both an absent key and a lookup error, matching the
`.ok().flatten()` chains in the source. -/
def ConfigEnv : Type := String → Option String

/-! ## JSON values (serde_json model) -/

/-- A `serde_json::Value`.  Objects are association lists; `serde_json`
deduplicates keys at parse time, and only key lookup is relied on. -/
inductive Json where
  | null
  | bool (b : Bool)
  | num (q : ℚ)
  | str (s : String)
  | arr (xs : List Json)
  | obj (kvs : List (String × Json))

/-- `Value::get(key)`: field lookup, defined only on objects. -/
def Json.getField : Json → String → Option Json
  | .obj kvs, k => kvs.lookup k
  | _, _ => Option.none

/-- `Value::as_array`. -/
def Json.asArray : Json → Option (List Json)
  | .arr xs => some xs
  | _ => Option.none

/-- `Value::as_str`. -/
def Json.asString : Json → Option String
  | .str s => some s
  | _ => Option.none

/-- `Value::as_bool`. -/
def Json.asBool : Json → Option Bool
  | .bool b => some b
  | _ => Option.none

/-! ## SearXNG data model (`searxng.rs`) -/

/-- `EngineFilter` (`searxng.rs` lines 19-24). -/
inductive EngineFilter where
  | enabled
  | disabled
  | all
deriving DecidableEq

/-- `SafeSearch` (`searxng.rs` lines 27-32). -/
inductive SafeSearch where
  | none
  | moderate
  | strict
deriving DecidableEq

/-- The numeric value of a safe-search level (`safe_search as u8`,
`searxng.rs` line 205). -/
def SafeSearch.toNat : SafeSearch → Nat
  | .none => 0
  | .moderate => 1
  | .strict => 2

/-- `SearXNGConfig` (`searxng.rs` lines 36-45). -/
structure SearXNGConfig where
  base_url : String
  default_engine : Option String
  default_categories : List String
  default_engines : List String
  language : String
  safe_search : SafeSearch
  user_agent : String
  num_results : Nat

/-- The crate version baked into the default user agent
(`env!("CARGO_PKG_VERSION")`, `searxng.rs` line 8; the manifest itself is not
part of the sources, so the concrete value is a stand-in). -/
def VERSION : String := "0.1.0"

/-- `SearXNGConfig::default` (`searxng.rs` lines 47-112) as a function of the
external configuration lookup.  The Rust `match` on the safe-search string
(lines 77-81) maps `"0"` to `None`, `"2"` to `Strict`, and every other
present-or-defaulted value to `Moderate`; the absent-key fallback string is
`"0"` (line 76). -/
def SearXNGConfig.default (cfg : ConfigEnv) : SearXNGConfig :=
  let base_url := (cfg "SEARXNG_BASE_URL").getD "http://localhost:8080"
  let default_engine := cfg "SEARXNG_DEFAULT_ENGINE"
  let default_categories :=
    parse_comma_separated_from_string ((cfg "SEARXNG_DEFAULT_CATEGORIES").getD "")
  let default_engines :=
    parse_comma_separated_from_string ((cfg "SEARXNG_DEFAULT_ENGINES").getD "")
  let language := (cfg "SEARXNG_DEFAULT_LANGUAGE").getD "en"
  let safe_search_str := (cfg "SEARXNG_SAFE_SEARCH").getD "0"
  let safe_search :=
    if safe_search_str = "0" then SafeSearch.none
    else if safe_search_str = "2" then SafeSearch.strict
    else SafeSearch.moderate
  let user_agent := (cfg "SEARXNG_USER_AGENT").getD ("searxng-rs/" ++ VERSION)
  let num_results := ((cfg "SEARXNG_NUM_RESULTS").bind (rustParseNat 32)).getD 5
  { base_url, default_engine, default_categories, default_engines,
    language, safe_search, user_agent, num_results }

/-- `SearchResult` (`searxng.rs` lines 115-133).  The `f64` relevance score is
modelled as `Option ℚ`, `Option.none` standing for NaN. -/
structure SearchResult where
  title : String
  url : String
  content : String
  engine : String
  parsed_url : List String
  template : String
  engines : List String
  positions : List Nat
  score : Option ℚ
  category : String
deriving DecidableEq

/-- `SearXNGResponse` (`searxng.rs` lines 136-152). -/
structure SearXNGResponse where
  query : String
  results : List SearchResult
  number_of_results : Nat
  answers : List String
  corrections : List String
  infoboxes : List Json
  suggestions : List String
  unresponsive_engines : List (List String)

/-- `SearchParams` (`searxng.rs` lines 155-165), with the field defaults of
`Default::default()`. -/
structure SearchParams where
  query : String := ""
  categories : Option String := Option.none
  engines : Option String := Option.none
  language : Option String := Option.none
  pageno : Option Nat := Option.none
  time_range : Option String := Option.none
  format : Option String := Option.none
  safe_search : Option SafeSearch := Option.none

/-! ## Query construction and the search pipeline -/

/-- One optional query parameter: pushed only when the value is present. -/
def opt_param (key : String) : Option String → List (String × String)
  | some v => [(key, v)]
  | Option.none => []

/-- The query-parameter list built by `SearXNGClient::search` (`searxng.rs`
lines 183-205), in push order. -/
def build_query_params (config : SearXNGConfig) (params : SearchParams) :
    List (String × String) :=
  [("q", params.query), ("format", "json")]
    ++ opt_param "categories" params.categories
    ++ opt_param "engines" params.engines
    ++ [("language", params.language.getD config.language)]
    ++ opt_param "pageno" (params.pageno.map toString)
    ++ opt_param "time_range" params.time_range
    ++ [("safesearch", toString (params.safe_search.getD config.safe_search).toNat)]

/-- The URL string handed to `Url::parse` by `SearXNGClient::search`
(`searxng.rs` line 180). -/
def search_url_string (config : SearXNGConfig) : String :=
  config.base_url ++ "/search"

/-- A GET request as assembled by the client: target URL, query parameters,
`User-Agent` header. -/
structure SearchRequest where
  url : String
  query_params : List (String × String)
  user_agent : String

/-- Errors of the search pipeline, one constructor per distinct `anyhow!`
message shape in `searxng.rs`. -/
inductive SearchError where
  | url_parse_failed
  | http_request_failed (e : String)
  | http_error (status : Nat) (body : String)
  | response_parse_failed (e : String)
  | connection_test_failed (e : String)
deriving DecidableEq

/-- The external collaborators of the search pipeline: the `url` crate's
parser, the HTTP transport (indexed by how many requests were issued before),
and `serde_json` (de)serialisation. -/
structure SearchEnv where
  parse_url : String → Option String
  fetch : Nat → SearchRequest → Except String HttpResponse
  parse_response : List Nat → Except String SearXNGResponse
  parse_json : List Nat → Except String Json
  serialize_response : SearXNGResponse → String

/-- The response handling of `SearXNGClient::search` (`searxng.rs`
lines 216-229): the shared success predicate, then the HTTP error carrying
status and decoded body, or the JSON parse of the body. -/
def search_handle_response (env : SearchEnv) (r : HttpResponse) :
    Except SearchError SearXNGResponse :=
  if !(is_success r) then
    .error (.http_error r.status (decode_or_unknown r.body))
  else
    match env.parse_response r.body with
    | .ok sr => .ok sr
    | .error e => .error (.response_parse_failed e)

/-- `SearXNGClient::search` (`searxng.rs` lines 179-230).  The second
component counts HTTP requests issued; `i` is the count on entry. -/
def search (env : SearchEnv) (config : SearXNGConfig) (params : SearchParams)
    (i : Nat) : Except SearchError SearXNGResponse × Nat :=
  match env.parse_url (search_url_string config) with
  | Option.none => (.error .url_parse_failed, i)
  | some u =>
    match env.fetch i ⟨u, build_query_params config params, config.user_agent⟩ with
    | .error e => (.error (.http_request_failed e), i + 1)
    | .ok r => (search_handle_response env r, i + 1)

/-- `SearXNGClient::test_connection` (`searxng.rs` lines 285-299). -/
def test_connection (env : SearchEnv) (config : SearXNGConfig) (i : Nat) :
    Except SearchError Bool × Nat :=
  match env.fetch i ⟨config.base_url ++ "/config", [], config.user_agent⟩ with
  | .error e => (.error (.connection_test_failed e), i + 1)
  | .ok r => (.ok (is_success r), i + 1)

/-! ## Ranking and truncation (`simple_search`) -/

/-- The ordering of two rationals, as `f64::partial_cmp` computes it on
non-NaN values. -/
def ratCmp (x y : ℚ) : Ordering :=
  if x < y then .lt else if x = y then .eq else .gt

/-- `f64::partial_cmp` on the score model: no ordering when either side is
NaN. -/
def fcmpOpt : Option ℚ → Option ℚ → Option Ordering
  | some x, some y => some (ratCmp x y)
  | _, _ => Option.none

/-- The comparator closure of `simple_search` (`searxng.rs` lines 252-256):
`b.score.partial_cmp(&a.score).unwrap_or(Ordering::Equal)`. -/
def result_cmp (a b : SearchResult) : Ordering :=
  (fcmpOpt b.score a.score).getD Ordering.eq

/-- The "does not need to swap" relation of the comparator: a stable sort by
`result_cmp` is a stable `mergeSort` by this Boolean relation. -/
def result_le (a b : SearchResult) : Bool :=
  result_cmp a b != Ordering.gt

/-- The sorting step of `simple_search` (`searxng.rs` lines 251-256):
`Vec::sort_by` is a stable sort, modelled by `List.mergeSort`. -/
def rank_results (resp : SearXNGResponse) : SearXNGResponse :=
  { resp with results := resp.results.mergeSort result_le }

/-- The truncation step of `simple_search` (`searxng.rs` lines 258-269): only
when the result count exceeds the limit, truncate and overwrite the reported
total with the truncated length. -/
def truncate_results (num : Nat) (resp : SearXNGResponse) : SearXNGResponse :=
  if num < resp.results.length then
    { resp with
        results := resp.results.take num,
        number_of_results := (resp.results.take num).length }
  else resp

/-- The full ranking step of `simple_search`: sort, then truncate. -/
def rank_and_truncate (num : Nat) (resp : SearXNGResponse) : SearXNGResponse :=
  truncate_results num (rank_results resp)

/-- `SearXNGClient::simple_search` (`searxng.rs` lines 233-282): defaults
applied to engines/categories, then `search`, then ranking and truncation. -/
def simple_search (env : SearchEnv) (config : SearXNGConfig) (query : String)
    (i : Nat) : Except SearchError SearXNGResponse × Nat :=
  let params0 : SearchParams := { query := query }
  let params1 :=
    if !config.default_engines.isEmpty then
      { params0 with engines := some (String.intercalate "," config.default_engines) }
    else params0
  let params2 :=
    if !config.default_categories.isEmpty then
      { params1 with categories := some (String.intercalate "," config.default_categories) }
    else params1
  match search env config params2 i with
  | (.error e, j) => (.error e, j)
  | (.ok r, j) => (.ok (rank_and_truncate config.num_results r), j)

/-! ## Engine introspection (`get_engines`) -/

/-- The per-entry filter of `get_engines` (`searxng.rs` lines 325-335):
`All` passes everything, `Enabled` needs `enabled == true` (absent or
non-boolean counting as `false`), `Disabled` is the complement. -/
def passes_filter (filter : EngineFilter) (engine : Json) : Bool :=
  match filter with
  | .all => true
  | .enabled => (((engine.getField "enabled").bind Json.asBool).getD false)
  | .disabled => !(((engine.getField "enabled").bind Json.asBool).getD true)

/-- The insertion loop of `get_engines` (`searxng.rs` lines 322-341) over the
engines array.  The `HashMap` is modelled as an association list whose lookup
returns the most recently inserted binding, so insertion is cons. -/
def engines_fold (filter : EngineFilter) (engines : List Json) :
    List (String × Json) :=
  engines.foldl
    (fun m e =>
      match (e.getField "name").bind Json.asString with
      | some name => if passes_filter filter e then (name, e) :: m else m
      | Option.none => m)
    []

/-- The body of `SearXNGClient::get_engines` after the config JSON has been
obtained (`searxng.rs` lines 321-345): require a top-level `engines` array,
else the distinct format error. -/
def get_engines_from_config (filter : EngineFilter) (config : Json) :
    Except String (List (String × Json)) :=
  match (config.getField "engines").bind Json.asArray with
  | some engines => .ok (engines_fold filter engines)
  | Option.none => .error "Unexpected response format"

/-- `SearXNGClient::get_engines` (`searxng.rs` lines 302-346), end to end. -/
def get_engines (env : SearchEnv) (config : SearXNGConfig)
    (filter : EngineFilter) (i : Nat) :
    Except String (List (String × Json)) × Nat :=
  match env.fetch i ⟨config.base_url ++ "/config", [], config.user_agent⟩ with
  | .error e => (.error ("Failed to get engines: " ++ e), i + 1)
  | .ok r =>
    if !(is_success r) then (.error "Unable to get search engines", i + 1)
    else
      match env.parse_json r.body with
      | .error e => (.error ("Failed to parse config: " ++ e), i + 1)
      | .ok j => (get_engines_from_config filter j, i + 1)

/-! ## The browse pipeline (`browse.rs`) -/

/-- Errors of `browse`, one constructor per distinct `anyhow!` message shape
in `browse.rs`. -/
inductive BrowseError where
  | http_request_failed (e : String)
  | parse_current_url_failed
  | resolve_relative_failed
  | http_error (status : Nat) (body : String)
  | decode_body_failed
  | too_many_redirects
deriving DecidableEq

/-- The external collaborators of `browse`: the HTTP transport (indexed by how
many requests were issued before), the `url` crate's `Url::parse` and
`Url::join` (the latter on an already parsed base), and the `html2md`
converter.  `strip_styles_and_scripts` (`browse.rs` lines 8-18) is built on
the external `regex` crate and is likewise kept opaque; no claim depends on
its internals. -/
structure BrowseEnv where
  fetch : Nat → String → Except String HttpResponse
  parse_url : String → Option String
  join_url : String → String → Option String
  strip_styles_and_scripts : String → String
  html_to_markdown : String → String

/-- The terminal-response handling of `browse` (`browse.rs` lines 62-78): the
shared success predicate, the HTTP error carrying status and decoded body, the
distinct UTF-8 decode error, then sanitisation and Markdown conversion. -/
def browse_handle_response (env : BrowseEnv) (r : HttpResponse) :
    Except BrowseError String :=
  if !(is_success r) then
    .error (.http_error r.status (decode_or_unknown r.body))
  else
    match string_from_utf8 r.body with
    | some html => .ok (env.html_to_markdown (env.strip_styles_and_scripts html))
    | Option.none => .error .decode_body_failed

/-- The redirect loop of `browse` (`browse.rs` lines 35-79): `fuel` is the
number of remaining iterations of `for _ in 0..max_redirects`, `i` the number
of HTTP requests issued so far (also returned).  A redirect status in
`[300,400)` with redirect-following enabled and a `location` header present
continues the loop: a location beginning with `"http"` is taken as-is,
otherwise it is resolved against the current URL, either resolution failure
aborting at once.  Every other response is terminal. -/
def browse_loop (env : BrowseEnv) (follow_redirects : Bool) :
    Nat → String → Nat → Except BrowseError String × Nat
  | 0, _, i => (.error .too_many_redirects, i)
  | fuel + 1, current_url, i =>
    match env.fetch i current_url with
    | .error e => (.error (.http_request_failed e), i + 1)
    | .ok r =>
      if 300 ≤ r.status && r.status < 400 && follow_redirects then
        match r.headers.lookup "location" with
        | some loc =>
          if starts_with loc "http" then
            browse_loop env follow_redirects fuel loc (i + 1)
          else
            match env.parse_url current_url with
            | some base =>
              match env.join_url base loc with
              | some u => browse_loop env follow_redirects fuel u (i + 1)
              | Option.none => (.error .resolve_relative_failed, i + 1)
            | Option.none => (.error .parse_current_url_failed, i + 1)
        | Option.none => (browse_handle_response env r, i + 1)
      else (browse_handle_response env r, i + 1)

/-- The redirect-follow flag read by `browse` (`browse.rs` lines 21-25):
exactly the string `"true"` enables it, default off. -/
def follow_redirects_of (cfg : ConfigEnv) : Bool :=
  ((cfg "BROWSE_FOLLOW_REDIRECTS").getD "false") == "true"

/-- The hop budget read by `browse` (`browse.rs` lines 27-31): parsed as
`usize` with fallback 10, both for an absent key and for an unparsable
value. -/
def max_redirects_of (cfg : ConfigEnv) : Nat :=
  (rustParseNat 64 ((cfg "BROWSE_MAX_REDIRECTS").getD "10")).getD 10

/-- `browse` (`browse.rs` lines 20-82): read the two configuration values,
run the bounded redirect loop, and fail with the "Too many redirects"
condition when the budget is exhausted (which the loop reports on zero
remaining fuel). -/
def browse (env : BrowseEnv) (cfg : ConfigEnv) (url : String) :
    Except BrowseError String × Nat :=
  browse_loop env (follow_redirects_of cfg) (max_redirects_of cfg) url 0

/-! ## The tool dispatcher (`lib.rs`) -/

/-- A tool-call outcome: the text content plus whether it is flagged as an
error, the only parts of `CallToolResult` the claims mention. -/
inductive ToolOutcome where
  | success (text : String) (mime : Option String)
  | error (text : String)
deriving DecidableEq

/-- The `Display` rendering of a search-pipeline error, following the
`anyhow!` format strings in `searxng.rs`. -/
def render_search_error : SearchError → String
  | .url_parse_failed => "URL parse error"
  | .http_request_failed e => "HTTP request failed: " ++ e
  | .http_error s b => "HTTP Error: " ++ toString s ++ " - " ++ b
  | .response_parse_failed e => "Failed to parse response: " ++ e
  | .connection_test_failed e => "Connection test failed: " ++ e

/-- The `search` tool entry point (`lib.rs` lines 28-95): validate the
`query` argument (present, a string, non-empty), then build the default
configuration, probe connectivity, and run `simple_search`.  The second
component counts HTTP requests issued during the call. -/
def search_tool (env : SearchEnv) (cfg : ConfigEnv)
    (args : Option (List (String × Json))) : ToolOutcome × Nat :=
  match (args.getD []).lookup "query" with
  | some (Json.str q) =>
    if q = "" then (.error "Please provide a non-empty query string", 0)
    else
      let config := SearXNGConfig.default cfg
      match test_connection env config 0 with
      | (.ok true, j) =>
        match simple_search env config q j with
        | (.ok r, k) => (.success (env.serialize_response r) (some "application/json"), k)
        | (.error e, k) => (.error ("Search failed: " ++ render_search_error e), k)
      | (.ok false, j) => (.error "Unable to connect to SearXNG server", j)
      | (.error e, j) => (.error ("Connection test failed: " ++ render_search_error e), j)
  | _ => (.error "Please provide a non-empty query string", 0)

/-- The `browse` tool entry point (`lib.rs` lines 97-137): validate the `url`
argument, then run the browse pipeline. -/
def browse_tool (env : BrowseEnv) (cfg : ConfigEnv)
    (args : Option (List (String × Json))) : ToolOutcome × Nat :=
  match (args.getD []).lookup "url" with
  | some (Json.str u) =>
    if u = "" then (.error "Please provide a non-empty url string", 0)
    else
      match browse env cfg u with
      | (.ok md, n) => (.success md (some "text/markdown"), n)
      | (.error _, n) => (.error "Browse failed", n)
  | _ => (.error "Please provide a non-empty url string", 0)

/-! ## Spec-side notion for refinement comparison -/

/-- Follows the spec's words for the redirect-location rule ("if it begins
with a scheme prefix treat it as absolute"): a string begins with a scheme
prefix when it starts with an alphabetic character, continues with scheme
characters, and is then followed by a colon (RFC 3986 syntax).  This is the
spec-side notion to compare against the source's literal `starts_with("http")`
test. -/
def begins_with_scheme (s : String) : Bool :=
  let schemeChar := fun d : Char => d.isAlphanum || d == '+' || d == '-' || d == '.'
  (match s.data.takeWhile schemeChar with
   | c :: _ => c.isAlpha
   | [] => false) &&
  (match s.data.dropWhile schemeChar with
   | ':' :: _ => true
   | _ => false)

/-! ## Projections of the score model -/

/-- The score of a result with NaN collapsed to `0`; only used on results
whose score is known to be comparable. -/
def score_val (r : SearchResult) : ℚ :=
  r.score.getD 0

/-- The total descending-score relation on results with comparable scores; on
such results it agrees with `result_le` and is transitive and total, which
`result_le` itself is not in the presence of NaN. -/
def result_leQ (a b : SearchResult) : Bool :=
  decide (score_val b ≤ score_val a)

/-! ## Concrete instances used by witnesses and counterexamples -/

/-- A browse environment whose transport always fails; only its shape
matters. -/
def triv_browse_env : BrowseEnv :=
  ⟨fun _ _ => .error "net", fun _ => Option.none, fun _ _ => Option.none, id, id⟩

/-- A search environment whose collaborators all fail; only its shape
matters. -/
def triv_search_env : SearchEnv :=
  ⟨fun _ => Option.none, fun _ _ => .error "net", fun _ => .error "parse",
   fun _ => .error "parse", fun _ => ""⟩

/-- A transport that answers every request with the same absolute-location
redirect. -/
def redirect_loop_env : BrowseEnv :=
  ⟨fun _ _ => .ok ⟨301, [("location", "http://x")], []⟩,
   fun _ => Option.none, fun _ _ => Option.none, id, id⟩

/-- Redirect following on, a hop budget of two. -/
def redirect_cfg : ConfigEnv := fun k =>
  if k = "BROWSE_FOLLOW_REDIRECTS" then some "true"
  else if k = "BROWSE_MAX_REDIRECTS" then some "2" else Option.none

/-- A transport whose first answer redirects to an `ftp` URL and which would
serve a successful page on any later request; the URL parser rejects
everything, as `Url::parse` does on a relative base such as `"bad url"`. -/
def scheme_redirect_env : BrowseEnv :=
  ⟨fun i _ =>
      if i = 0 then .ok ⟨301, [("location", "ftp://example.org/")], []⟩
      else .ok ⟨200, [], [111, 107]⟩,
   fun _ => Option.none, fun _ _ => Option.none, id, id⟩

/-- Redirect following on, default hop budget. -/
def follow_cfg : ConfigEnv := fun k =>
  if k = "BROWSE_FOLLOW_REDIRECTS" then some "true" else Option.none

/-- A configuration whose max-redirects value parses to zero. -/
def zero_redirects_cfg : ConfigEnv := fun k =>
  if k = "BROWSE_MAX_REDIRECTS" then some "0" else Option.none

/-- A concrete search result with a comparable score. -/
def sample_result : SearchResult :=
  ⟨"Result", "http://r", "snippet", "engine", [], "", [], [], some 1, "general"⟩

/-- A second concrete search result with a higher score. -/
def sample_result2 : SearchResult :=
  ⟨"Result2", "http://r2", "snippet2", "engine", [], "", [], [], some 2, "general"⟩

/-- A one-result backend response. -/
def sample_response : SearXNGResponse :=
  ⟨"q", [sample_result], 1, [], [], [], [], []⟩

/-- A two-result backend response. -/
def two_response : SearXNGResponse :=
  ⟨"q", [sample_result, sample_result2], 2, [], [], [], [], []⟩

/-- An enabled engine entry. -/
def engine_a : Json := .obj [("name", .str "a"), ("enabled", .bool true)]

/-- A disabled engine entry. -/
def engine_b : Json := .obj [("name", .str "b"), ("enabled", .bool false)]

/-- A parsed `/config` document with a two-entry engines array. -/
def engines_config : Json := .obj [("engines", .arr [engine_a, engine_b])]

/-- A concrete client configuration. -/
def c8_config : SearXNGConfig :=
  ⟨"http://localhost:8080", Option.none, [], [], "en", .none, "agent", 5⟩

/-- Concrete search parameters with a categories override. -/
def c8_params : SearchParams :=
  { query := "cats", categories := some "news" }

/-! # Theorems -/

/-- Claim C1, counterexample: when the safe-search configuration value is
absent, `SearXNGConfig::default` sets the level to `None`, not `Moderate` —
the absent-key fallback string is `"0"`, which the match maps to `None`. -/
theorem c1_counterexample :
    (SearXNGConfig.default (fun _ => Option.none)).safe_search = SafeSearch.none ∧
    SafeSearch.none ≠ SafeSearch.moderate :=
  ⟨rfl, by decide⟩

/-- Claim C1, amended: when the safe-search configuration value is absent (or
is the string `"0"`), the configuration constructed at call time carries level
`None`; `"2"` gives `Strict`; `Moderate` is the fallback for every other
present value, not the absent-key default. -/
theorem c1_safe_search_default (cfg : ConfigEnv) :
    (cfg "SEARXNG_SAFE_SEARCH" = Option.none →
      (SearXNGConfig.default cfg).safe_search = SafeSearch.none) ∧
    (cfg "SEARXNG_SAFE_SEARCH" = some "0" →
      (SearXNGConfig.default cfg).safe_search = SafeSearch.none) ∧
    (cfg "SEARXNG_SAFE_SEARCH" = some "2" →
      (SearXNGConfig.default cfg).safe_search = SafeSearch.strict) ∧
    (∀ s, cfg "SEARXNG_SAFE_SEARCH" = some s → s ≠ "0" → s ≠ "2" →
      (SearXNGConfig.default cfg).safe_search = SafeSearch.moderate) := by
  refine ⟨fun h => ?_, fun h => ?_, fun h => ?_, fun s h h0 h2 => ?_⟩
  · simp [SearXNGConfig.default, h]
  · simp [SearXNGConfig.default, h]
  · simp [SearXNGConfig.default, h]
  · simp [SearXNGConfig.default, h, h0, h2]

/-- Witness for the amended C1 theorem at two concrete configuration
environments. -/
theorem c1_safe_search_default_witness :
    (SearXNGConfig.default (fun _ => Option.none)).safe_search = SafeSearch.none ∧
    (SearXNGConfig.default (fun _ => some "1")).safe_search = SafeSearch.moderate :=
  ⟨(c1_safe_search_default (fun _ => Option.none)).1 rfl,
   (c1_safe_search_default (fun _ => some "1")).2.2.2 "1" rfl (by decide) (by decide)⟩

/-- Claim C5: when the result count exceeds `num_results` the list is
truncated to exactly that limit and the reported total is overwritten with the
truncated length, every other field untouched; when the count is within the
limit the truncation step is the identity. -/
theorem c5_truncation (num : Nat) (resp : SearXNGResponse) :
    (resp.results.length ≤ num → truncate_results num resp = resp) ∧
    (num < resp.results.length →
      (truncate_results num resp).results = resp.results.take num ∧
      (truncate_results num resp).results.length = num ∧
      (truncate_results num resp).number_of_results = num ∧
      (truncate_results num resp).query = resp.query ∧
      (truncate_results num resp).answers = resp.answers ∧
      (truncate_results num resp).corrections = resp.corrections ∧
      (truncate_results num resp).infoboxes = resp.infoboxes ∧
      (truncate_results num resp).suggestions = resp.suggestions ∧
      (truncate_results num resp).unresponsive_engines = resp.unresponsive_engines) := by
  constructor
  · intro h
    simp [truncate_results, Nat.not_lt.mpr h]
  · intro h
    simp [truncate_results, h, List.length_take, Nat.min_eq_left h.le]

/-- Witness for the C5 theorem: both the no-op branch and the truncating
branch at concrete responses. -/
theorem c5_truncation_witness :
    truncate_results 5 sample_response = sample_response ∧
    (truncate_results 1 two_response).results = two_response.results.take 1 ∧
    (truncate_results 1 two_response).number_of_results = 1 :=
  ⟨(c5_truncation 5 sample_response).1 (by decide),
   ((c5_truncation 1 two_response).2 (by decide)).1,
   ((c5_truncation 1 two_response).2 (by decide)).2.2.1⟩

/-- Claim C10: when the max-redirects configuration value parses to `0`
(a parsable value, so the fallback of `10` is not used), `browse` issues no
HTTP request at all and fails with the too-many-redirects condition. -/
theorem c10_zero_max_redirects (env : BrowseEnv) (cfg : ConfigEnv) (url : String)
    (h : rustParseNat 64 ((cfg "BROWSE_MAX_REDIRECTS").getD "10") = some 0) :
    browse env cfg url = (.error .too_many_redirects, 0) := by
  unfold browse max_redirects_of
  rw [h]
  rfl

/-- Witness for the C10 theorem at a concrete configuration carrying the
string `"0"`. -/
theorem c10_zero_max_redirects_witness :
    browse triv_browse_env zero_redirects_cfg "http://a"
      = (.error .too_many_redirects, 0) :=
  c10_zero_max_redirects triv_browse_env zero_redirects_cfg "http://a" (by decide)

/-- Claim C3: in both the browse and the search pipelines a response is
treated as a successful fetch exactly when its status is in `[200,300)` or its
status is `0` with a non-empty body; any other response yields the HTTP error
carrying the status and the body decoded as UTF-8 with a placeholder for
invalid bytes, and a successful response never yields that error. -/
theorem c3_success_predicate (envB : BrowseEnv) (envS : SearchEnv) (r : HttpResponse) :
    (is_success r = true ↔
      ((200 ≤ r.status ∧ r.status < 300) ∨ (r.status = 0 ∧ r.body ≠ []))) ∧
    (browse_handle_response envB r
        = .error (.http_error r.status (decode_or_unknown r.body)) ↔
      is_success r = false) ∧
    (search_handle_response envS r
        = .error (.http_error r.status (decode_or_unknown r.body)) ↔
      is_success r = false) ∧
    (is_success r = true →
      ∀ s b, browse_handle_response envB r ≠ .error (.http_error s b) ∧
        search_handle_response envS r ≠ .error (.http_error s b)) := by
  have hchar : is_success r = true ↔
      ((200 ≤ r.status ∧ r.status < 300) ∨ (r.status = 0 ∧ r.body ≠ [])) := by
    simp [is_success, List.isEmpty_iff]
  refine ⟨hchar, ?_, ?_, ?_⟩
  · cases hs : is_success r
    · simp [browse_handle_response, hs]
    · simp only [browse_handle_response, hs, Bool.not_true, Bool.false_eq_true,
        if_false, iff_false]
      cases hb : string_from_utf8 r.body <;> simp
  · cases hs : is_success r
    · simp [search_handle_response, hs]
    · simp only [search_handle_response, hs, Bool.not_true, Bool.false_eq_true,
        if_false, iff_false]
      cases hb : envS.parse_response r.body <;> simp
  · intro hs s b
    constructor
    · simp only [browse_handle_response, hs, Bool.not_true, Bool.false_eq_true, if_false]
      cases hb : string_from_utf8 r.body <;> simp
    · simp only [search_handle_response, hs, Bool.not_true, Bool.false_eq_true, if_false]
      cases hb : envS.parse_response r.body <;> simp

/-- Witness for the C3 theorem: the zero-status quirk response is a success,
and a 404 yields the HTTP error with status and decoded body. -/
theorem c3_success_predicate_witness :
    is_success ⟨0, [], [104]⟩ = true ∧
    browse_handle_response triv_browse_env ⟨404, [], []⟩
      = .error (.http_error 404 (decode_or_unknown [])) :=
  ⟨(c3_success_predicate triv_browse_env triv_search_env ⟨0, [], [104]⟩).1.mpr
      (Or.inr ⟨rfl, by decide⟩),
   (c3_success_predicate triv_browse_env triv_search_env ⟨404, [], []⟩).2.1.mpr rfl⟩

/-- Claim C9: a search tool call whose `query` argument is missing, not a
string, or the empty string returns the validation error and issues no HTTP
request (the request count of the call is zero). -/
theorem c9_search_validation (env : SearchEnv) (cfg : ConfigEnv)
    (args : Option (List (String × Json)))
    (h : ∀ q : String, (args.getD []).lookup "query" = some (Json.str q) → q = "") :
    search_tool env cfg args = (.error "Please provide a non-empty query string", 0) := by
  rcases hl : (args.getD []).lookup "query" with _ | j
  · simp [search_tool, hl]
  · cases j with
    | str q =>
      have hq := h q hl
      subst hq
      simp [search_tool, hl]
    | null => simp [search_tool, hl]
    | bool b => simp [search_tool, hl]
    | num n => simp [search_tool, hl]
    | arr xs => simp [search_tool, hl]
    | obj kvs => simp [search_tool, hl]

/-- Witness for the C9 theorem: `search("")` is rejected with the validation
error and zero HTTP requests. -/
theorem c9_search_validation_witness :
    search_tool triv_search_env (fun _ => Option.none) (some [("query", Json.str "")])
      = (.error "Please provide a non-empty query string", 0) :=
  c9_search_validation triv_search_env (fun _ => Option.none)
    (some [("query", Json.str "")])
    (by
      intro q hq
      simp only [Option.getD_some, List.lookup] at hq
      rw [show ("query" == "query") = true from rfl] at hq
      simp only [cond_true, Option.some.injEq, Json.str.injEq] at hq
      exact hq.symm)

/-- Stability of the engine-map insertion loop: looking up a name in the built
map returns the last array entry that bears that name and passes the filter,
because each later insertion shadows earlier bindings of the same name. -/
theorem engines_fold_lookup (filter : EngineFilter) (engines : List Json)
    (name : String) :
    (engines_fold filter engines).lookup name =
      (engines.filter (fun e =>
        decide ((e.getField "name").bind Json.asString = some name) &&
          passes_filter filter e)).getLast? := by
  induction engines using List.reverseRecOn with
  | nil => rfl
  | append_singleton xs e ih =>
    simp only [engines_fold, List.foldl_append, List.foldl_cons, List.foldl_nil] at ih ⊢
    rcases hn : (e.getField "name").bind Json.asString with _ | n
    · simp [hn, List.filter_append, ih]
    · cases hp : passes_filter filter e
      · simp [hn, hp, List.filter_append, ih]
      · by_cases hnn : name = n
        · subst hnn
          simp [hn, hp, List.filter_append]
        · have hbeq : (name == n) = false := beq_eq_false_iff_ne.mpr hnn
          have hnn' : n ≠ name := fun h => hnn h.symm
          simp [hn, hp, hbeq, hnn', List.filter_append, List.lookup_cons, ih]

/-- Claim C7: on a parsed configuration with an `engines` array,
`get_engines` builds a name-to-entry map in which lookup returns the last
passing entry of that name; the `Enabled` filter passes exactly the entries
whose `enabled` field is the boolean `true` (absent or non-boolean counting as
false), `Disabled` passes exactly those whose field is the boolean `false`
(absent or non-boolean counting as `true`, so such entries do not pass),
`All` passes everything; an absent or malformed `engines` array fails with the
distinct format error. -/
theorem c7_get_engines (filter : EngineFilter) (config : Json) :
    (∀ engines, (config.getField "engines").bind Json.asArray = some engines →
      get_engines_from_config filter config = .ok (engines_fold filter engines) ∧
      ∀ name, (engines_fold filter engines).lookup name =
        (engines.filter (fun e =>
          decide ((e.getField "name").bind Json.asString = some name) &&
            passes_filter filter e)).getLast?) ∧
    ((config.getField "engines").bind Json.asArray = Option.none →
      get_engines_from_config filter config = .error "Unexpected response format") ∧
    (∀ e, passes_filter .enabled e = true ↔
      e.getField "enabled" = some (Json.bool true)) ∧
    (∀ e, passes_filter .disabled e = true ↔
      e.getField "enabled" = some (Json.bool false)) ∧
    (∀ e, passes_filter .all e = true) := by
  refine ⟨?_, ?_, ?_, ?_, fun e => rfl⟩
  · intro engines he
    unfold get_engines_from_config
    rw [he]
    exact ⟨rfl, fun name => engines_fold_lookup filter engines name⟩
  · intro he
    unfold get_engines_from_config
    rw [he]
  · intro e
    rcases he : e.getField "enabled" with _ | j
    · simp [passes_filter, he]
    · cases j <;> simp [passes_filter, he, Json.asBool]
  · intro e
    rcases he : e.getField "enabled" with _ | j
    · simp [passes_filter, he]
    · cases j <;> simp [passes_filter, he, Json.asBool]

/-- Witness for the C7 theorem on the spec's two-engine example. -/
theorem c7_get_engines_witness :
    get_engines_from_config .enabled engines_config
      = .ok (engines_fold .enabled [engine_a, engine_b]) ∧
    (engines_fold .enabled [engine_a, engine_b]).lookup "a"
      = ([engine_a, engine_b].filter (fun e =>
          decide ((e.getField "name").bind Json.asString = some "a") &&
            passes_filter .enabled e)).getLast? ∧
    passes_filter .enabled engine_a = true :=
  ⟨((c7_get_engines .enabled engines_config).1 [engine_a, engine_b] rfl).1,
   ((c7_get_engines .enabled engines_config).1 [engine_a, engine_b] rfl).2 "a",
   (c7_get_engines .enabled engines_config).2.2.1 engine_a |>.mpr rfl⟩

/-- Claim C8: the query-parameter list built for `{base_url}/search` always
contains `q`, `format=json`, `language` (parameter override or configured
default) and `safesearch` (numeric value of the override or default), and
contains `categories`, `engines`, `pageno` and `time_range` exactly when the
corresponding optional parameter is provided. -/
theorem c8_query_params (config : SearXNGConfig) (params : SearchParams) :
    ("q", params.query) ∈ build_query_params config params ∧
    ("format", "json") ∈ build_query_params config params ∧
    ("language", params.language.getD config.language)
      ∈ build_query_params config params ∧
    ("safesearch", toString (params.safe_search.getD config.safe_search).toNat)
      ∈ build_query_params config params ∧
    ((∃ v, ("categories", v) ∈ build_query_params config params) ↔
      params.categories.isSome) ∧
    (∀ c, params.categories = some c →
      ("categories", c) ∈ build_query_params config params) ∧
    ((∃ v, ("engines", v) ∈ build_query_params config params) ↔
      params.engines.isSome) ∧
    (∀ c, params.engines = some c →
      ("engines", c) ∈ build_query_params config params) ∧
    ((∃ v, ("pageno", v) ∈ build_query_params config params) ↔
      params.pageno.isSome) ∧
    (∀ p, params.pageno = some p →
      ("pageno", toString p) ∈ build_query_params config params) ∧
    ((∃ v, ("time_range", v) ∈ build_query_params config params) ↔
      params.time_range.isSome) ∧
    (∀ c, params.time_range = some c →
      ("time_range", c) ∈ build_query_params config params) ∧
    search_url_string config = config.base_url ++ "/search" := by
  refine ⟨?_, ?_, ?_, ?_, ?_, ?_, ?_, ?_, ?_, ?_, ?_, ?_, rfl⟩
  · simp [build_query_params]
  · simp [build_query_params]
  · simp [build_query_params]
  · simp [build_query_params]
  · rcases hc : params.categories with _ | c <;>
      rcases he : params.engines with _ | en <;>
      rcases hp : params.pageno with _ | pn <;>
      rcases ht : params.time_range with _ | tr <;>
      simp [build_query_params, opt_param, hc, he, hp, ht]
  · intro c hc
    simp [build_query_params, opt_param, hc]
  · rcases hc : params.categories with _ | c <;>
      rcases he : params.engines with _ | en <;>
      rcases hp : params.pageno with _ | pn <;>
      rcases ht : params.time_range with _ | tr <;>
      simp [build_query_params, opt_param, hc, he, hp, ht]
  · intro c hc
    simp [build_query_params, opt_param, hc]
  · rcases hc : params.categories with _ | c <;>
      rcases he : params.engines with _ | en <;>
      rcases hp : params.pageno with _ | pn <;>
      rcases ht : params.time_range with _ | tr <;>
      simp [build_query_params, opt_param, hc, he, hp, ht]
  · intro p hp
    simp [build_query_params, opt_param, hp]
  · rcases hc : params.categories with _ | c <;>
      rcases he : params.engines with _ | en <;>
      rcases hp : params.pageno with _ | pn <;>
      rcases ht : params.time_range with _ | tr <;>
      simp [build_query_params, opt_param, hc, he, hp, ht]
  · intro c hc
    simp [build_query_params, opt_param, hc]

/-- Witness for the C8 theorem at concrete configuration and parameters. -/
theorem c8_query_params_witness :
    ("q", "cats") ∈ build_query_params c8_config c8_params ∧
    ("categories", "news") ∈ build_query_params c8_config c8_params ∧
    ((∃ v, ("engines", v) ∈ build_query_params c8_config c8_params) ↔
      (c8_params.engines).isSome) :=
  ⟨(c8_query_params c8_config c8_params).1,
   (c8_query_params c8_config c8_params).2.2.2.2.2.1 "news" rfl,
   (c8_query_params c8_config c8_params).2.2.2.2.2.2.1⟩

/-- The redirect loop issues at most `fuel` further HTTP requests beyond the
`i` already counted, whatever the transport answers. -/
theorem browse_loop_count_le (env : BrowseEnv) (follow : Bool) :
    ∀ (fuel : Nat) (url : String) (i : Nat),
      (browse_loop env follow fuel url i).2 ≤ i + fuel := by
  intro fuel
  induction fuel with
  | zero =>
    intro url i
    simp [browse_loop]
  | succ n ih =>
    intro url i
    rcases hfe : env.fetch i url with e | r
    · simp [browse_loop, hfe]
    · by_cases hred : (300 ≤ r.status && r.status < 400 && follow) = true
      · rcases hloc : r.headers.lookup "location" with _ | loc
        · simp [browse_loop, hfe, hred, hloc]
        · by_cases hsw : starts_with loc "http" = true
          · have step : browse_loop env follow (n + 1) url i
                = browse_loop env follow n loc (i + 1) := by
              simp [browse_loop, hfe, hred, hloc, hsw]
            rw [step]
            exact le_trans (ih loc (i + 1)) (by omega)
          · rw [Bool.not_eq_true] at hsw
            rcases hpu : env.parse_url url with _ | base
            · simp [browse_loop, hfe, hred, hloc, hsw, hpu]
            · rcases hj : env.join_url base loc with _ | u
              · simp [browse_loop, hfe, hred, hloc, hsw, hpu, hj]
              · have step : browse_loop env follow (n + 1) url i
                    = browse_loop env follow n u (i + 1) := by
                  simp [browse_loop, hfe, hred, hloc, hsw, hpu, hj]
                rw [step]
                exact le_trans (ih u (i + 1)) (by omega)
      · rw [Bool.not_eq_true] at hred
        simp [browse_loop, hfe, hred]

/-- When every response is a followable redirect whose location resolves, the
loop spends its whole budget and reports exhaustion. -/
theorem browse_loop_all_redirects (env : BrowseEnv)
    (hr : ∀ i u, ∃ r, env.fetch i u = .ok r ∧ 300 ≤ r.status ∧ r.status < 400 ∧
      ∃ loc, r.headers.lookup "location" = some loc ∧
        (starts_with loc "http" = true ∨
          ∃ b, env.parse_url u = some b ∧ (env.join_url b loc).isSome)) :
    ∀ (fuel : Nat) (url : String) (i : Nat),
      browse_loop env true fuel url i = (.error .too_many_redirects, i + fuel) := by
  intro fuel
  induction fuel with
  | zero =>
    intro url i
    simp [browse_loop]
  | succ n ih =>
    intro url i
    obtain ⟨r, hf, h3, h4, loc, hloc, hres⟩ := hr i url
    have hcond : (300 ≤ r.status && r.status < 400 && true) = true := by
      simp [h3, h4]
    by_cases hsw : starts_with loc "http" = true
    · have step : browse_loop env true (n + 1) url i
          = browse_loop env true n loc (i + 1) := by
        simp [browse_loop, hf, hcond, hloc, hsw]
      rw [step, ih loc (i + 1)]
      congr 1
      omega
    · rw [Bool.not_eq_true] at hsw
      rcases hres with h | ⟨b, hb, hj⟩
      · rw [h] at hsw
        exact absurd hsw (by simp)
      · obtain ⟨u, hu⟩ := Option.isSome_iff_exists.mp hj
        have step : browse_loop env true (n + 1) url i
            = browse_loop env true n u (i + 1) := by
          simp [browse_loop, hf, hcond, hloc, hsw, hb, hu]
        rw [step, ih u (i + 1)]
        congr 1
        omega

/-- Claim C4: with redirect following enabled, for every transport in which
each response is a redirect (status in `[300,400)` with a resolvable
`location` header), `browse` stops after exactly `max_redirects` requests with
the too-many-redirects failure; and for every transport whatsoever the number
of requests never exceeds `max_redirects`. -/
theorem c4_redirect_budget (env : BrowseEnv) (cfg : ConfigEnv) (url : String)
    (hf : follow_redirects_of cfg = true)
    (hr : ∀ i u, ∃ r, env.fetch i u = .ok r ∧ 300 ≤ r.status ∧ r.status < 400 ∧
      ∃ loc, r.headers.lookup "location" = some loc ∧
        (starts_with loc "http" = true ∨
          ∃ b, env.parse_url u = some b ∧ (env.join_url b loc).isSome)) :
    browse env cfg url = (.error .too_many_redirects, max_redirects_of cfg) ∧
    ∀ (env' : BrowseEnv) (cfg' : ConfigEnv) (url' : String),
      (browse env' cfg' url').2 ≤ max_redirects_of cfg' := by
  constructor
  · unfold browse
    rw [hf]
    simpa using browse_loop_all_redirects env hr (max_redirects_of cfg) url 0
  · intro env' cfg' url'
    simpa using browse_loop_count_le env' (follow_redirects_of cfg')
      (max_redirects_of cfg') url' 0

/-- Witness for the C4 theorem: a transport that always answers with the same
absolute redirect, and a budget of two. -/
theorem c4_redirect_budget_witness :
    browse redirect_loop_env redirect_cfg "http://a"
      = (.error .too_many_redirects, max_redirects_of redirect_cfg) :=
  (c4_redirect_budget redirect_loop_env redirect_cfg "http://a" rfl
    (fun i u => ⟨⟨301, [("location", "http://x")], []⟩, rfl, by decide, by decide,
      "http://x", rfl, Or.inl (by decide)⟩)).1

/-- Claim C6 (amended): during redirect following, a location beginning with
the literal string `"http"` is taken as-is as the new current URL; any other
location — even an absolute URL of a different scheme — is resolved relative
to the current URL, and a failure to parse the current URL or to resolve the
location aborts the call at once with its distinct error, independently of the
remaining hop budget. -/
theorem c6_redirect_resolution (env : BrowseEnv) (fuel i : Nat)
    (current_url loc : String) (r : HttpResponse)
    (hfetch : env.fetch i current_url = .ok r)
    (h3 : 300 ≤ r.status) (h4 : r.status < 400)
    (hloc : r.headers.lookup "location" = some loc) :
    (starts_with loc "http" = true →
      browse_loop env true (fuel + 1) current_url i =
        browse_loop env true fuel loc (i + 1)) ∧
    (starts_with loc "http" = false → env.parse_url current_url = Option.none →
      browse_loop env true (fuel + 1) current_url i =
        (.error .parse_current_url_failed, i + 1)) ∧
    (∀ b, starts_with loc "http" = false → env.parse_url current_url = some b →
      env.join_url b loc = Option.none →
      browse_loop env true (fuel + 1) current_url i =
        (.error .resolve_relative_failed, i + 1)) ∧
    (∀ b u, starts_with loc "http" = false → env.parse_url current_url = some b →
      env.join_url b loc = some u →
      browse_loop env true (fuel + 1) current_url i =
        browse_loop env true fuel u (i + 1)) := by
  have hcond : (300 ≤ r.status && r.status < 400 && true) = true := by
    simp [h3, h4]
  refine ⟨fun hsw => ?_, fun hsw hpu => ?_, fun b hsw hpu hj => ?_,
    fun b u hsw hpu hj => ?_⟩
  · simp [browse_loop, hfetch, hcond, hloc, hsw]
  · simp [browse_loop, hfetch, hcond, hloc, hsw, hpu]
  · simp [browse_loop, hfetch, hcond, hloc, hsw, hpu, hj]
  · simp [browse_loop, hfetch, hcond, hloc, hsw, hpu, hj]

/-- Witness for the amended C6 theorem: the as-is branch on an `"http"`
location, and the immediately-fatal parse failure on an `"ftp"` location with
an unparsable current URL, each discharged at a concrete run. -/
theorem c6_redirect_resolution_witness :
    browse_loop redirect_loop_env true 3 "http://a" 0 =
      browse_loop redirect_loop_env true 2 "http://x" 1 ∧
    browse_loop scheme_redirect_env true 10 "bad url" 0 =
      (.error .parse_current_url_failed, 1) :=
  ⟨(c6_redirect_resolution redirect_loop_env 2 0 "http://a" "http://x"
      ⟨301, [("location", "http://x")], []⟩ rfl (by decide) (by decide) rfl).1
      (by decide),
   (c6_redirect_resolution scheme_redirect_env 9 0 "bad url" "ftp://example.org/"
      ⟨301, [("location", "ftp://example.org/")], []⟩ rfl (by decide) (by decide)
      rfl).2.1 (by decide) rfl⟩

/-- Claim C6, counterexample: the location `"ftp://example.org/"` begins with
a scheme prefix, yet it is not taken as-is — with an unparsable current URL
the call aborts with the parse failure instead of continuing to fetch the
absolute location (the transport would have served a success on any further
request). -/
theorem c6_counterexample :
    begins_with_scheme "ftp://example.org/" = true ∧
    browse scheme_redirect_env follow_cfg "bad url"
      = (.error .parse_current_url_failed, 1) ∧
    ∀ md n, browse scheme_redirect_env follow_cfg "bad url" ≠ (.ok md, n) := by
  refine ⟨by decide, rfl, ?_⟩
  intro md n h
  have h1 : (Except.error BrowseError.parse_current_url_failed :
      Except BrowseError String) = .ok md := congrArg Prod.fst h
  exact Except.noConfusion h1

/-- On non-NaN scores the comparator's "needs no swap" test is exactly the
rational comparison. -/
theorem ratCmp_ne_gt (x y : ℚ) : (ratCmp x y != Ordering.gt) = decide (x ≤ y) := by
  unfold ratCmp
  rcases lt_trichotomy x y with h | h | h
  · simp only [if_pos h, decide_eq_true h.le]
    rfl
  · subst h
    simp only [lt_irrefl, if_false, if_pos rfl, decide_eq_true (le_refl x)]
    rfl
  · have h1 : ¬x < y := not_lt.mpr h.le
    have h2 : x ≠ y := h.ne'
    have h3 : ¬x ≤ y := not_le.mpr h
    simp only [if_neg h1, if_neg h2, decide_eq_false h3]
    rfl

/-- On two comparable results the source comparator sorts by descending
score. -/
theorem result_le_comparable {a b : SearchResult} {x y : ℚ}
    (ha : a.score = some x) (hb : b.score = some y) :
    result_le a b = decide (y ≤ x) := by
  simp only [result_le, result_cmp, ha, hb, fcmpOpt, Option.getD_some]
  exact ratCmp_ne_gt y x

/-- The total descending relation is transitive. -/
theorem result_leQ_trans : ∀ a b c : SearchResult,
    result_leQ a b → result_leQ b c → result_leQ a c := by
  intro a b c hab hbc
  simp only [result_leQ, decide_eq_true_eq] at *
  exact le_trans hbc hab

/-- The total descending relation is total. -/
theorem result_leQ_total : ∀ a b : SearchResult,
    result_leQ a b || result_leQ b a := by
  intro a b
  simp only [result_leQ, Bool.or_eq_true, decide_eq_true_eq]
  exact le_total (score_val b) (score_val a)

/-- On a list of comparable scores, sorting by the source comparator is
sorting by the total descending relation. -/
theorem mergeSort_result_le_eq {L : List SearchResult}
    (h : ∀ r ∈ L, r.score.isSome) :
    L.mergeSort result_le = L.mergeSort result_leQ := by
  have hl : ∀ a ∈ L, ∀ b ∈ L, result_le a b = result_leQ (id a) (id b) := by
    intro a ha b hb
    obtain ⟨x, hx⟩ := Option.isSome_iff_exists.mp (h a ha)
    obtain ⟨y, hy⟩ := Option.isSome_iff_exists.mp (h b hb)
    rw [result_le_comparable hx hy]
    simp [result_leQ, score_val, hx, hy]
  have hmap := @List.map_mergeSort _ _ result_le result_leQ id L hl
  simpa using hmap

/-- The sorted list is pairwise descending for the total relation. -/
theorem mergeSort_result_leQ_sorted (L : List SearchResult) :
    (L.mergeSort result_leQ).Pairwise (fun a b => result_leQ a b = true) :=
  List.sorted_mergeSort result_leQ_trans result_leQ_total L

/-- Stability on score classes: filtering the sorted list to any one score
value returns exactly the same sublist, in the same order, as filtering the
input — equal elements are never reordered. -/
theorem mergeSort_filter_score (L : List SearchResult) (s : Option ℚ) :
    (L.mergeSort result_leQ).filter (fun r => decide (r.score = s))
      = L.filter (fun r => decide (r.score = s)) := by
  have hpair : (L.filter (fun r => decide (r.score = s))).Pairwise
      (fun a b => result_leQ a b = true) := by
    apply List.pairwise_of_forall_mem_list
    intro a ha b hb
    rw [List.mem_filter] at ha hb
    have ha2 : a.score = s := by simpa using ha.2
    have hb2 : b.score = s := by simpa using hb.2
    simp [result_leQ, score_val, ha2, hb2]
  have hsub : List.Sublist (L.filter (fun r => decide (r.score = s)))
      (L.mergeSort result_leQ) :=
    List.sublist_mergeSort result_leQ_trans result_leQ_total hpair
      (List.filter_sublist L)
  have hFp : (L.filter (fun r => decide (r.score = s))).filter
      (fun r => decide (r.score = s)) = L.filter (fun r => decide (r.score = s)) :=
    List.filter_eq_self.mpr (fun a ha => (List.mem_filter.mp ha).2)
  have hsub2 : List.Sublist (L.filter (fun r => decide (r.score = s)))
      ((L.mergeSort result_leQ).filter (fun r => decide (r.score = s))) :=
    hFp ▸ List.Sublist.filter (fun r => decide (r.score = s)) hsub
  have hperm : List.Perm
      ((L.mergeSort result_leQ).filter (fun r => decide (r.score = s)))
      (L.filter (fun r => decide (r.score = s))) :=
    (List.mergeSort_perm L result_leQ).filter (fun r => decide (r.score = s))
  exact (hsub2.eq_of_length hperm.length_eq.symm).symm

/-- Claim C2: on a backend response (all scores comparable, as JSON numbers
are), the ranking step leaves the results pairwise sorted in descending score
order, never reorders results of equal score (each score class of the output
is a prefix of the input's class), and bounds the final length by
`num_results`; and the comparator maps any non-comparable pair to `Equal`
instead of failing. -/
theorem c2_rank_and_truncate (num : Nat) (resp : SearXNGResponse)
    (h : ∀ r ∈ resp.results, r.score.isSome) :
    (rank_and_truncate num resp).results.Pairwise
      (fun a b => ∀ x y, a.score = some x → b.score = some y → y ≤ x) ∧
    (∀ s : Option ℚ,
      (rank_and_truncate num resp).results.filter (fun r => decide (r.score = s))
        <+: resp.results.filter (fun r => decide (r.score = s))) ∧
    (rank_and_truncate num resp).results.length ≤ num ∧
    (∀ a b : SearchResult, a.score = Option.none ∨ b.score = Option.none →
      result_cmp a b = Ordering.eq) := by
  have hbridge := mergeSort_result_le_eq h
  have hres : (rank_and_truncate num resp).results
      = if num < resp.results.length
        then (resp.results.mergeSort result_leQ).take num
        else resp.results.mergeSort result_leQ := by
    unfold rank_and_truncate truncate_results rank_results
    simp only [hbridge, List.length_mergeSort]
    split <;> rfl
  have hP : (resp.results.mergeSort result_leQ).Pairwise
      (fun a b => ∀ x y, a.score = some x → b.score = some y → y ≤ x) := by
    refine List.Pairwise.imp_of_mem ?_ (mergeSort_result_leQ_sorted resp.results)
    intro a b ha hb hr
    intro x y hx hy
    simp only [result_leQ, decide_eq_true_eq] at hr
    simp only [score_val, hx, hy, Option.getD_some] at hr
    exact hr
  refine ⟨?_, ?_, ?_, ?_⟩
  · rw [hres]
    split
    · exact List.Pairwise.sublist (List.take_sublist num _) hP
    · exact hP
  · intro s
    rw [hres]
    split
    · have := (List.take_prefix num
        (resp.results.mergeSort result_leQ)).filter (fun r => decide (r.score = s))
      rwa [mergeSort_filter_score] at this
    · rw [mergeSort_filter_score]
  · rw [hres]
    split
    · simp only [List.length_take]
      exact Nat.min_le_left num _
    · simp only [List.length_mergeSort]
      omega
  · intro a b hab
    rcases hab with ha | hb
    · cases hb2 : b.score <;> simp [result_cmp, fcmpOpt, ha, hb2]
    · cases ha2 : a.score <;> simp [result_cmp, fcmpOpt, hb, ha2]

/-- Witness for the C2 theorem at a concrete one-result response. -/
theorem c2_rank_and_truncate_witness :
    (∀ r ∈ sample_response.results, r.score.isSome) ∧
    ((rank_and_truncate 5 sample_response).results.Pairwise
      (fun a b => ∀ x y, a.score = some x → b.score = some y → y ≤ x) ∧
    (∀ s : Option ℚ,
      (rank_and_truncate 5 sample_response).results.filter
        (fun r => decide (r.score = s))
        <+: sample_response.results.filter (fun r => decide (r.score = s))) ∧
    (rank_and_truncate 5 sample_response).results.length ≤ 5 ∧
    (∀ a b : SearchResult, a.score = Option.none ∨ b.score = Option.none →
      result_cmp a b = Ordering.eq)) := by
  have h : ∀ r ∈ sample_response.results, r.score.isSome := by
    intro r hr
    rw [show sample_response.results = [sample_result] from rfl,
      List.mem_singleton] at hr
    subst hr
    rfl
  exact ⟨h, c2_rank_and_truncate 5 sample_response h⟩

end SearxMcp
